import Mathlib

/-!
# Aiakos: a YubiHSM-backed validator signer (`hsm.go`)

A shallow embedding of `AiakosPV` and its methods.  The adapter is a record
that is passed in and handed back by every operation; a Go `panic` is an
explicit outcome (`hsm.go` has no `recover`, so a panic inside a library call
is the outcome of the method that made the call); calls to `a.Logger.Error`
are collected as output lines.

The collaborators of `hsm.go` (the `yubihsm-go` command builders and constants,
the HSM behind `SendEncryptedCommand`, Tendermint's canonical sign bytes and
address derivation) are not part of the file: they are the fields of `Env`, and
every theorem holds for all of them.
-/

namespace Aiakos

/-! ## Data model -/

/-- One byte. -/
abbrev Byte := Fin 256

/-- A Go `[]byte`; the nil slice and the empty slice are both `[]`. -/
abbrev Bytes := List Byte

/-- A Go `uint16` object identifier (`signingKeyID`, `authKeyID`, `keyID`). -/
abbrev KeyID := Fin 65536

/-- A Go `error` value, identified with its message (`errors.New msg`). -/
abbrev Error := String

/-- The `commands.Algorithm` tag, a `uint8`. -/
abbrev Algorithm := Fin 256

/-- The `commands.CommandMessage` handed to `SendEncryptedCommand`. -/
structure CommandMessage where
  CommandType : Nat
  Data : Bytes
deriving DecidableEq, Repr

/-- The `commands.Response` interface: the three variants `hsm.go` asserts on,
and `other` for every remaining variant. -/
inductive Response where
  | GetPubKeyResponse (Algorithm : Algorithm) (KeyData : Bytes)
  | SignDataEddsaResponse (Signature : Bytes)
  | PutAsymmetricKeyResponse (KeyID : KeyID)
  | other (CommandType : Nat) (Data : Bytes)
deriving DecidableEq, Repr

/-- The part of `yubihsm.SessionManager` that the adapter can observe: the
commands handed to `SendEncryptedCommand` on it so far, oldest first (one entry
per call, whatever the library then does with the command), and whether the
library counts the session as destroyed. -/
structure SessionManager where
  sent : List CommandMessage
  destroyed : Bool
deriving DecidableEq, Repr

/-- The size of an Ed25519 public key, `ed25519.PubKeyEd25519Size`. -/
def PubKeyEd25519Size : Nat := 32

/-- The type `ed25519.PubKeyEd25519`, a `[32]byte`. -/
abbrev PubKeyEd25519 := { l : Bytes // l.length = PubKeyEd25519Size }

/-- The type `types.Vote` (its field `Type` is `VoteType` here); a `*types.Vote`
argument is taken to be non-nil. -/
structure Vote where
  ValidatorAddress : Bytes
  ValidatorIndex : Int
  Height : Int
  Round : Int
  Timestamp : Int
  VoteType : Byte
  BlockID : Bytes
  Signature : Bytes
deriving DecidableEq, Repr

/-- The type `types.Proposal`; a `*types.Proposal` argument is taken to be
non-nil. -/
structure Proposal where
  Height : Int
  Round : Int
  Timestamp : Int
  BlockPartsHeader : Bytes
  POLRound : Int
  POLBlockID : Bytes
  Signature : Bytes
deriving DecidableEq, Repr

/-- The struct `AiakosPV`; a nil `hsmSessionManager` pointer and a nil
`cachedPubKey` interface are `none`.  Of the embedded `cmn.BaseService` the
methods use only `Logger`, whose lines are the `logged` component of `Exec`. -/
structure AiakosPV where
  hsmSessionManager : Option SessionManager
  hsmURL : String
  authKeyID : KeyID
  password : String
  signingKeyID : KeyID
  cachedPubKey : Option PubKeyEd25519
deriving DecidableEq

/-- The value carried by a Go panic: an error value (`panic err`, or a runtime
error raised inside a library call), or the runtime fault of dereferencing a
nil pointer. -/
inductive PanicValue where
  | error (err : Error)
  | nilDereference
deriving DecidableEq, Repr

/-- How a call ends: it returns a value or it panics. -/
inductive Outcome (α : Type) where
  | returned (v : α)
  | panicked (p : PanicValue)
deriving DecidableEq, Repr

/-- How one `SendEncryptedCommand` call on a session ends inside the library: it
returns `(resp, nil)`, it returns `(nil, err)`, or it panics (`fault`). -/
inductive Reply where
  | ok (resp : Response)
  | error (err : Error)
  | fault (p : PanicValue)
deriving DecidableEq, Repr

/-- The collaborators of `hsm.go`. -/
structure Env where
  /-- The constant `commands.AlgorighmED25519`. -/
  AlgorighmED25519 : Algorithm
  /-- The constant `commands.Domain1`. -/
  Domain1 : Nat
  /-- The constant `commands.CapabilityAsymmetricSignEddsa`. -/
  CapabilityAsymmetricSignEddsa : Nat
  /-- The builder `commands.CreateGetPubKeyCommand keyID`. -/
  CreateGetPubKeyCommand : KeyID → Except Error CommandMessage
  /-- The builder `commands.CreateSignDataEddsaCommand keyID data`. -/
  CreateSignDataEddsaCommand : KeyID → Bytes → Except Error CommandMessage
  /-- The builder `commands.CreatePutAsymmetricKeyCommand keyID label domains
  capabilities algorithm key1 key2`. -/
  CreatePutAsymmetricKeyCommand :
    KeyID → Bytes → Nat → Nat → Algorithm → Bytes → Bytes → Except Error CommandMessage
  /-- The constructor `yubihsm.NewSessionManager (connector.NewHTTPConnector url)
  authKeyID password`. -/
  NewSessionManager : String → KeyID → String → Except Error SessionManager
  /-- How `SendEncryptedCommand` ends for a command on a session, given the
  session's state (everything handed to it before, destroyed or not). -/
  respond : SessionManager → CommandMessage → Reply
  /-- How the library's `Destroy` ends on a session (it talks to the HSM to close
  the session and may panic there), and whether the library counts the session
  as destroyed afterwards. -/
  Destroy : SessionManager → Bool × Outcome Unit
  /-- The method `vote.SignBytes chainID`. -/
  VoteSignBytes : Vote → String → Bytes
  /-- The method `proposal.SignBytes chainID`. -/
  ProposalSignBytes : Proposal → String → Bytes
  /-- The method `pubKey.Address ()`. -/
  Address : PubKeyEd25519 → Bytes

/-- One call of `a.Logger.Error msg keyvals...`. -/
structure LogEntry where
  msg : String
  keyvals : List (String × Nat)
deriving DecidableEq, Repr

/-- The effect of one method call on the adapter: the adapter afterwards, the
lines written to the logger, and how the call ended. -/
structure Exec (α : Type) where
  pv : AiakosPV
  logged : List LogEntry
  out : Outcome α

/-! ## Collaborator calls on the session pointer -/

/-- The call `sm.SendEncryptedCommand command` on the pointer `sm`: a nil
receiver faults when the method reads the session; otherwise the call is
recorded in the session and ends the way the library makes it end. -/
def SendEncryptedCommand (env : Env) (sm : Option SessionManager) (command : CommandMessage) :
    Option SessionManager × Outcome (Except Error Response) :=
  match sm with
  | none => (none, .panicked .nilDereference)
  | some s =>
    (some { s with sent := s.sent ++ [command] },
      match env.respond s command with
      | .ok resp => .returned (.ok resp)
      | .error err => .returned (.error err)
      | .fault p => .panicked p)

/-- The call `sm.Destroy ()` on the pointer `sm`: a nil receiver faults when the
method reads the session; otherwise the call ends the way the library makes it
end on that session. -/
def Destroy (env : Env) (sm : Option SessionManager) : Option SessionManager × Outcome Unit :=
  match sm with
  | none => (none, .panicked .nilDereference)
  | some s => (some { s with destroyed := (env.Destroy s).1 }, (env.Destroy s).2)

/-- Go's builtin `copy dst src`: the first `min (len dst) (len src)` elements of
`dst` are overwritten by those of `src`. -/
def copy (dst src : Bytes) : Bytes :=
  src.take dst.length ++ dst.drop src.length

/-- The bytes of the Go string literal `"imported"`. -/
def importedBytes : Bytes := [105, 109, 112, 111, 114, 116, 101, 100]

/-! ## The methods of `AiakosPV` -/

/-- The constructor `NewAiakosPV` (the logger only configures the base service). -/
def NewAiakosPV (hsmURL : String) (signingKeyID authKeyID : KeyID) (password : String) :
    AiakosPV × Option Error :=
  ({ hsmSessionManager := none
     hsmURL := hsmURL
     authKeyID := authKeyID
     password := password
     signingKeyID := signingKeyID
     cachedPubKey := none }, none)

/-- The method `OnStart`. -/
def OnStart (env : Env) (a : AiakosPV) : Exec (Option Error) :=
  match env.NewSessionManager a.hsmURL a.authKeyID a.password with
  | .error err => ⟨a, [], .returned (some err)⟩
  | .ok sessionManager =>
    ⟨{ a with hsmSessionManager := some sessionManager }, [], .returned none⟩

/-- The method `OnStop`. -/
def OnStop (env : Env) (a : AiakosPV) : Exec Unit :=
  match Destroy env a.hsmSessionManager with
  | (sm, .panicked p) => ⟨{ a with hsmSessionManager := sm }, [], .panicked p⟩
  | (sm, .returned _) => ⟨{ a with hsmSessionManager := sm }, [], .returned ()⟩

/-- The method `GetPubKey`. -/
def GetPubKey (env : Env) (a : AiakosPV) : Exec PubKeyEd25519 :=
  match a.cachedPubKey with
  | some k => ⟨a, [], .returned k⟩
  | none =>
    match env.CreateGetPubKeyCommand a.signingKeyID with
    | .error err => ⟨a, [], .panicked (.error err)⟩
    | .ok command =>
      match SendEncryptedCommand env a.hsmSessionManager command with
      | (sm, .panicked p) => ⟨{ a with hsmSessionManager := sm }, [], .panicked p⟩
      | (sm, .returned (.error err)) =>
        ⟨{ a with hsmSessionManager := sm }, [], .panicked (.error err)⟩
      | (sm, .returned (.ok (.GetPubKeyResponse algorithm keyData))) =>
        if algorithm ≠ env.AlgorighmED25519 then
          ⟨{ a with hsmSessionManager := sm },
            [⟨"invalid response type", [("algorithm", algorithm.val)]⟩],
            .panicked (.error "invalid pubKey algorithm")⟩
        else if h : keyData.length ≠ PubKeyEd25519Size then
          ⟨{ a with hsmSessionManager := sm },
            [⟨"invalid pubKey size", [("size", keyData.length)]⟩],
            .panicked (.error "invalid pubKey size")⟩
        else
          let publicKey : PubKeyEd25519 :=
            ⟨copy (List.replicate PubKeyEd25519Size 0) keyData, by
              have hk : keyData.length = PubKeyEd25519Size := not_not.mp h
              simp [copy, hk]⟩
          ⟨{ a with hsmSessionManager := sm, cachedPubKey := some publicKey }, [],
            .returned publicKey⟩
      | (sm, .returned (.ok _)) =>
        ⟨{ a with hsmSessionManager := sm }, [⟨"invalid response type", []⟩],
          .panicked (.error "invalid response type")⟩

/-- The method `GetAddress`. -/
def GetAddress (env : Env) (a : AiakosPV) : Exec Bytes :=
  match GetPubKey env a with
  | ⟨a1, logged, .returned pubKey⟩ => ⟨a1, logged, .returned (env.Address pubKey)⟩
  | ⟨a1, logged, .panicked p⟩ => ⟨a1, logged, .panicked p⟩

/-- The method `signBytes`; the pair returned is `(signature, err)`. -/
def signBytes (env : Env) (a : AiakosPV) (data : Bytes) : Exec (Bytes × Option Error) :=
  match env.CreateSignDataEddsaCommand a.signingKeyID data with
  | .error err => ⟨a, [], .returned ([], some err)⟩
  | .ok command =>
    match SendEncryptedCommand env a.hsmSessionManager command with
    | (sm, .panicked p) => ⟨{ a with hsmSessionManager := sm }, [], .panicked p⟩
    | (sm, .returned (.error err)) =>
      ⟨{ a with hsmSessionManager := sm }, [], .returned ([], some err)⟩
    | (sm, .returned (.ok (.SignDataEddsaResponse signature))) =>
      if signature.length ≠ 64 then
        ⟨{ a with hsmSessionManager := sm },
          [⟨"invalid signature length", [("size", signature.length)]⟩],
          .returned ([], some "invalid signature length")⟩
      else
        ⟨{ a with hsmSessionManager := sm }, [], .returned (signature, none)⟩
    | (sm, .returned (.ok _)) =>
      ⟨{ a with hsmSessionManager := sm }, [⟨"invalid response type", []⟩],
        .returned ([], some "invalid response type")⟩

/-- The method `SignVote`; the second component is the vote behind the pointer
after the call. -/
def SignVote (env : Env) (a : AiakosPV) (chainID : String) (vote : Vote) :
    Exec (Option Error) × Vote :=
  match signBytes env a (env.VoteSignBytes vote chainID) with
  | ⟨a1, logged, .panicked p⟩ => (⟨a1, logged, .panicked p⟩, vote)
  | ⟨a1, logged, .returned (_, some err)⟩ => (⟨a1, logged, .returned (some err)⟩, vote)
  | ⟨a1, logged, .returned (signature, none)⟩ =>
    (⟨a1, logged, .returned none⟩, { vote with Signature := signature })

/-- The method `SignProposal`; the second component is the proposal behind the
pointer after the call. -/
def SignProposal (env : Env) (a : AiakosPV) (chainID : String) (proposal : Proposal) :
    Exec (Option Error) × Proposal :=
  match signBytes env a (env.ProposalSignBytes proposal chainID) with
  | ⟨a1, logged, .panicked p⟩ => (⟨a1, logged, .panicked p⟩, proposal)
  | ⟨a1, logged, .returned (_, some err)⟩ => (⟨a1, logged, .returned (some err)⟩, proposal)
  | ⟨a1, logged, .returned (signature, none)⟩ =>
    (⟨a1, logged, .returned none⟩, { proposal with Signature := signature })

/-- The method `ImportKey`. -/
def ImportKey (env : Env) (a : AiakosPV) (keyID : KeyID) (key : Bytes) : Exec (Option Error) :=
  match env.CreatePutAsymmetricKeyCommand keyID importedBytes env.Domain1
      env.CapabilityAsymmetricSignEddsa env.AlgorighmED25519 key [] with
  | .error err => ⟨a, [], .returned (some err)⟩
  | .ok command =>
    match SendEncryptedCommand env a.hsmSessionManager command with
    | (sm, .panicked p) => ⟨{ a with hsmSessionManager := sm }, [], .panicked p⟩
    | (sm, .returned (.error err)) =>
      ⟨{ a with hsmSessionManager := sm }, [], .returned (some err)⟩
    | (sm, .returned (.ok (.PutAsymmetricKeyResponse respKeyID))) =>
      if respKeyID ≠ keyID then
        ⟨{ a with hsmSessionManager := sm }, [⟨"imported KeyID mismatch", []⟩],
          .returned (some "imported KeyID mismatch")⟩
      else
        ⟨{ a with hsmSessionManager := sm }, [], .returned none⟩
    | (sm, .returned (.ok _)) =>
      ⟨{ a with hsmSessionManager := sm }, [⟨"invalid response type", []⟩],
        .returned (some "invalid response type")⟩

/-! ## The adapter as a transition system -/

/-- One call on the adapter, with its arguments. -/
inductive Op where
  | OnStart
  | OnStop
  | GetAddress
  | GetPubKey
  | SignVote (chainID : String) (vote : Vote)
  | SignProposal (chainID : String) (proposal : Proposal)
  | ImportKey (keyID : KeyID) (key : Bytes)

/-- The adapter after one call, whether the call returned or panicked. -/
def step (env : Env) (a : AiakosPV) : Op → AiakosPV
  | .OnStart => (OnStart env a).pv
  | .OnStop => (OnStop env a).pv
  | .GetAddress => (GetAddress env a).pv
  | .GetPubKey => (GetPubKey env a).pv
  | .SignVote chainID vote => (SignVote env a chainID vote).1.pv
  | .SignProposal chainID proposal => (SignProposal env a chainID proposal).1.pv
  | .ImportKey keyID key => (ImportKey env a keyID key).pv

/-- The adapter after a sequence of calls, each against the collaborators'
behaviour at that time. -/
def run (a : AiakosPV) : List (Env × Op) → AiakosPV
  | [] => a
  | (env, op) :: rest => run (step env a op) rest

/-! ## Concrete collaborators and inputs used to exercise the theorems -/

/-- A collaborator set whose HSM gives the same answer to every command, and
whose session constructor gives `opened`. -/
def fixedEnv (answer : Reply) (opened : Except Error SessionManager) : Env where
  AlgorighmED25519 := 46
  Domain1 := 1
  CapabilityAsymmetricSignEddsa := 256
  CreateGetPubKeyCommand := fun keyID => .ok ⟨84, [Fin.ofNat (keyID.val / 256), Fin.ofNat keyID.val]⟩
  CreateSignDataEddsaCommand := fun keyID data =>
    .ok ⟨106, [Fin.ofNat (keyID.val / 256), Fin.ofNat keyID.val] ++ data⟩
  CreatePutAsymmetricKeyCommand := fun keyID _ _ _ _ key _ =>
    .ok ⟨69, [Fin.ofNat (keyID.val / 256), Fin.ofNat keyID.val] ++ key⟩
  NewSessionManager := fun _ _ _ => opened
  respond := fun _ _ => answer
  Destroy := fun _ => (true, .returned ())
  VoteSignBytes := fun vote chainID => chainID.toList.map (fun c => Fin.ofNat c.toNat) ++ vote.BlockID
  ProposalSignBytes := fun proposal chainID =>
    chainID.toList.map (fun c => Fin.ofNat c.toNat) ++ proposal.POLBlockID
  Address := fun pubKey => pubKey.val.take 20

/-- A fresh session: nothing sent, not destroyed. -/
def freshSession : SessionManager := ⟨[], false⟩

/-- A started adapter with an empty public-key cache. -/
def startedPV : AiakosPV :=
  { hsmSessionManager := some freshSession
    hsmURL := "localhost:12345"
    authKeyID := 1
    password := "password"
    signingKeyID := 100
    cachedPubKey := none }

/-- Thirty-two bytes of key data. -/
def sampleKeyData : Bytes := List.replicate 32 7

/-- Sixty-four bytes of signature. -/
def sampleSignature : Bytes := List.replicate 64 9

/-- A vote without a signature. -/
def sampleVote : Vote :=
  { ValidatorAddress := [1, 2], ValidatorIndex := 0, Height := 5, Round := 0, Timestamp := 0,
    VoteType := 1, BlockID := [3, 4], Signature := [] }

/-- A proposal without a signature. -/
def sampleProposal : Proposal :=
  { Height := 5, Round := 0, Timestamp := 0, BlockPartsHeader := [], POLRound := -1,
    POLBlockID := [3, 4], Signature := [] }

/-- An HSM that answers every command with a well-formed public key. -/
def pubKeyEnv : Env := fixedEnv (.ok (.GetPubKeyResponse 46 sampleKeyData)) (.ok freshSession)

/-- An HSM that answers with an Ed25519 key of 31 bytes. -/
def shortKeyEnv : Env :=
  fixedEnv (.ok (.GetPubKeyResponse 46 (List.replicate 31 7))) (.ok freshSession)

/-- An HSM that answers with a 32-byte key tagged with another algorithm. -/
def wrongAlgorithmEnv : Env :=
  fixedEnv (.ok (.GetPubKeyResponse 12 sampleKeyData)) (.ok freshSession)

/-- An HSM that answers every command with a 64-byte signature. -/
def signEnv : Env := fixedEnv (.ok (.SignDataEddsaResponse sampleSignature)) (.ok freshSession)

/-- An HSM that answers every command with a 63-byte signature. -/
def shortSignatureEnv : Env :=
  fixedEnv (.ok (.SignDataEddsaResponse (List.replicate 63 9))) (.ok freshSession)

/-- An HSM that reports key slot 7 as written. -/
def importEnv : Env := fixedEnv (.ok (.PutAsymmetricKeyResponse 7)) (.ok freshSession)

/-- A library whose `SendEncryptedCommand` panics on the frame it receives. -/
def faultingEnv : Env :=
  fixedEnv (.fault (.error "runtime error: slice bounds out of range")) (.ok freshSession)

/-- A library whose `Destroy` panics while closing the session. -/
def failingDestroyEnv : Env :=
  { signEnv with Destroy := fun _ => (false, .panicked (.error "close session failed")) }

/-- An HSM that cannot be reached: no session can be opened. -/
def unreachableEnv : Env :=
  fixedEnv (.error "connection refused") (.error "connection refused")

/-- A well-formed public key. -/
def sampleKey : PubKeyEd25519 := ⟨sampleKeyData, rfl⟩

/-- A started adapter whose public-key cache holds `sampleKey`. -/
def cachedPV : AiakosPV := { startedPV with cachedPubKey := some sampleKey }

/-- A newly constructed adapter: no session yet, empty cache. -/
def newPV : AiakosPV := (NewAiakosPV "localhost:12345" 100 1 "password").1

/-! ## Theorems -/

theorem copy_of_full (keyData : Bytes) (h : keyData.length = PubKeyEd25519Size) :
    copy (List.replicate PubKeyEd25519Size 0) keyData = keyData := by
  simp [copy, h]

/-- C1: with an empty cache, a session, and an HSM that answers the
get-public-key command with a `GetPubKeyResponse` tagged Ed25519 carrying
exactly 32 bytes, `GetPubKey` returns a key whose bytes are the reply's key data;
a second `GetPubKey` on the resulting adapter returns the same key, and after
both calls the session has had exactly one command sent over it more than
before: the get-public-key command. -/
theorem GetPubKey_fetches_once_then_caches (env : Env) (a : AiakosPV) (sm : SessionManager)
    (command : CommandMessage) (keyData : Bytes)
    (hcache : a.cachedPubKey = none)
    (hsm : a.hsmSessionManager = some sm)
    (hcmd : env.CreateGetPubKeyCommand a.signingKeyID = .ok command)
    (hresp : env.respond sm command = .ok (.GetPubKeyResponse env.AlgorighmED25519 keyData))
    (hlen : keyData.length = 32) :
    ∃ k : PubKeyEd25519,
      (GetPubKey env a).out = .returned k ∧ k.val = keyData ∧
      (GetPubKey env (GetPubKey env a).pv).out = .returned k ∧
      (GetPubKey env a).pv.hsmSessionManager =
        some { sm with sent := sm.sent ++ [command] } ∧
      (GetPubKey env (GetPubKey env a).pv).pv.hsmSessionManager =
        some { sm with sent := sm.sent ++ [command] } ∧
      (GetPubKey env (GetPubKey env a).pv).pv.cachedPubKey = some k := by
  have hlen2 : keyData.length = PubKeyEd25519Size := hlen
  refine ⟨⟨keyData, hlen2⟩, ?_⟩
  have h1 : GetPubKey env a =
      ⟨{ a with hsmSessionManager := some { sm with sent := sm.sent ++ [command] },
                cachedPubKey := some ⟨keyData, hlen2⟩ }, [], .returned ⟨keyData, hlen2⟩⟩ := by
    simp [GetPubKey, hcache, hcmd, hsm, SendEncryptedCommand, hresp, hlen2, copy_of_full]
  rw [h1]
  simp [GetPubKey]

theorem GetPubKey_fetches_once_then_caches_witness :
    ∃ k : PubKeyEd25519,
      (GetPubKey pubKeyEnv
        startedPV).out = .returned k ∧ k.val = sampleKeyData ∧
      (GetPubKey pubKeyEnv
        (GetPubKey pubKeyEnv
          startedPV).pv).out = .returned k ∧
      (GetPubKey pubKeyEnv
        startedPV).pv.hsmSessionManager = some ⟨[⟨84, [0, 100]⟩], false⟩ ∧
      (GetPubKey pubKeyEnv
        (GetPubKey pubKeyEnv
          startedPV).pv).pv.hsmSessionManager = some ⟨[⟨84, [0, 100]⟩], false⟩ ∧
      (GetPubKey pubKeyEnv
        (GetPubKey pubKeyEnv
          startedPV).pv).pv.cachedPubKey = some k :=
  GetPubKey_fetches_once_then_caches
    pubKeyEnv
    startedPV freshSession ⟨84, [0, 100]⟩ sampleKeyData rfl rfl rfl rfl rfl

/-- C2: with an empty cache, whenever the HSM does not answer the
get-public-key command with an Ed25519-tagged `GetPubKeyResponse` of exactly 32
bytes (wrong length, wrong algorithm, another response variant, a channel error,
no session, or no command), `GetPubKey` panics, the cache is still empty, every
field other than the session is unchanged, and the session differs at most by
the command recorded as sent. -/
theorem GetPubKey_invalid_reply_panics (env : Env) (a : AiakosPV)
    (hcache : a.cachedPubKey = none)
    (hbad : ¬ ∃ sm command keyData,
      a.hsmSessionManager = some sm ∧
      env.CreateGetPubKeyCommand a.signingKeyID = .ok command ∧
      env.respond sm command = .ok (.GetPubKeyResponse env.AlgorighmED25519 keyData) ∧
      keyData.length = 32) :
    (∃ p, (GetPubKey env a).out = .panicked p) ∧
    (GetPubKey env a).pv.cachedPubKey = none ∧
    (GetPubKey env a).pv =
      { a with hsmSessionManager := (GetPubKey env a).pv.hsmSessionManager } ∧
    (∀ s', (GetPubKey env a).pv.hsmSessionManager = some s' →
      ∃ s, a.hsmSessionManager = some s ∧ s'.destroyed = s.destroyed ∧
        (s'.sent = s.sent ∨ ∃ command,
          env.CreateGetPubKeyCommand a.signingKeyID = .ok command ∧
          s'.sent = s.sent ++ [command])) := by
  obtain ⟨session, url, authKey, pw, signKey, cache⟩ := a
  simp only at hcache hbad
  subst hcache
  unfold GetPubKey
  simp only
  cases hc : env.CreateGetPubKeyCommand signKey with
  | error err =>
    simp only [true_and, exists_const, false_and, or_false]
    exact ⟨⟨_, rfl⟩, fun s1 hs => ⟨s1, hs, rfl, Or.inl rfl⟩⟩
  | ok command =>
    cases session with
    | none => simp [SendEncryptedCommand]
    | some sm =>
      cases hr : env.respond sm command with
      | error err => simp [SendEncryptedCommand, hr]
      | fault p => simp [SendEncryptedCommand, hr]
      | ok resp =>
        cases resp with
        | GetPubKeyResponse algorithm keyData =>
          by_cases halg : algorithm = env.AlgorighmED25519
          · by_cases hlen : keyData.length = PubKeyEd25519Size
            · exact absurd ⟨sm, command, keyData, rfl, hc, halg ▸ hr, hlen⟩ hbad
            · simp [SendEncryptedCommand, hr, halg, hlen]
          · simp [SendEncryptedCommand, hr, halg]
        | SignDataEddsaResponse sig => simp [SendEncryptedCommand, hr]
        | PutAsymmetricKeyResponse k => simp [SendEncryptedCommand, hr]
        | other t d => simp [SendEncryptedCommand, hr]

theorem GetPubKey_invalid_reply_panics_witness :
    (∃ p, (GetPubKey shortKeyEnv startedPV).out = .panicked p) ∧
    (GetPubKey shortKeyEnv startedPV).pv.cachedPubKey = none ∧
    (GetPubKey shortKeyEnv startedPV).pv =
      { startedPV with hsmSessionManager := (GetPubKey shortKeyEnv startedPV).pv.hsmSessionManager } ∧
    (∀ s', (GetPubKey shortKeyEnv startedPV).pv.hsmSessionManager = some s' →
      ∃ s, startedPV.hsmSessionManager = some s ∧ s'.destroyed = s.destroyed ∧
        (s'.sent = s.sent ∨ ∃ command,
          shortKeyEnv.CreateGetPubKeyCommand startedPV.signingKeyID = .ok command ∧
          s'.sent = s.sent ++ [command])) :=
  GetPubKey_invalid_reply_panics shortKeyEnv startedPV rfl (by
    rintro ⟨sm, command, keyData, -, -, hresp, hlen⟩
    have h31 : keyData = List.replicate 31 7 := by
      simpa [shortKeyEnv, fixedEnv] using hresp.symm
    rw [h31] at hlen
    simp at hlen)

/-- C3, as the code has it: `SignVote` on an adapter that was never started
neither returns an error nor signs: the call on the nil session pointer panics;
and on a started adapter a panic inside the library call is not turned into an
error either. -/
theorem SignVote_panics_instead_of_returning_an_error :
    (SignVote signEnv newPV "test-chain" sampleVote).1.out = .panicked .nilDereference ∧
    (¬ ∃ e, (SignVote signEnv newPV "test-chain" sampleVote).1.out = .returned e) ∧
    (SignVote faultingEnv startedPV "test-chain" sampleVote).1.out =
      .panicked (.error "runtime error: slice bounds out of range") ∧
    (¬ ∃ e, (SignVote faultingEnv startedPV "test-chain" sampleVote).1.out = .returned e) := by
  have h1 : (SignVote signEnv newPV "test-chain" sampleVote).1.out =
      .panicked .nilDereference := rfl
  have h2 : (SignVote faultingEnv startedPV "test-chain" sampleVote).1.out =
      .panicked (.error "runtime error: slice bounds out of range") := rfl
  refine ⟨h1, ?_, h2, ?_⟩
  · rw [h1]; simp
  · rw [h2]; simp

/-- C3, amended: for every adapter, chain ID, vote and collaborator behaviour,
`SignVote` returns no error if and only if the adapter holds a session, the sign
command was built, the channel call succeeded and the reply is a
`SignDataEddsaResponse` with a signature of exactly 64 bytes; in that case the
vote is the old vote with `Signature` set to the reply's signature; in every
other case the vote is unchanged, and an error is returned unless the call
panics, which it does exactly when the command was built and either the session
pointer is nil (nil dereference) or the library call itself panics (with the
library's panic value). -/
theorem SignVote_signs_iff_valid_reply (env : Env) (a : AiakosPV) (chainID : String)
    (vote : Vote) :
    ((SignVote env a chainID vote).1.out = .returned none ↔
      ∃ sm command signature,
        a.hsmSessionManager = some sm ∧
        env.CreateSignDataEddsaCommand a.signingKeyID (env.VoteSignBytes vote chainID)
          = .ok command ∧
        env.respond sm command = .ok (.SignDataEddsaResponse signature) ∧
        signature.length = 64) ∧
    (∀ sm, a.hsmSessionManager = some sm → ∀ command,
      env.CreateSignDataEddsaCommand a.signingKeyID (env.VoteSignBytes vote chainID)
        = .ok command →
      ∀ signature, env.respond sm command = .ok (.SignDataEddsaResponse signature) →
      signature.length = 64 →
      (SignVote env a chainID vote).2 = { vote with Signature := signature }) ∧
    ((SignVote env a chainID vote).1.out ≠ .returned none →
      (SignVote env a chainID vote).2 = vote) ∧
    (∀ p, (SignVote env a chainID vote).1.out = .panicked p ↔
      ∃ command,
        env.CreateSignDataEddsaCommand a.signingKeyID (env.VoteSignBytes vote chainID)
          = .ok command ∧
        ((a.hsmSessionManager = none ∧ p = .nilDereference) ∨
          ∃ sm, a.hsmSessionManager = some sm ∧ env.respond sm command = .fault p)) ∧
    ((SignVote env a chainID vote).1.out ≠ .returned none →
      (¬ ∃ p, (SignVote env a chainID vote).1.out = .panicked p) →
      ∃ err, (SignVote env a chainID vote).1.out = .returned (some err)) := by
  unfold SignVote signBytes
  cases hc : env.CreateSignDataEddsaCommand a.signingKeyID (env.VoteSignBytes vote chainID) with
  | error err => simp
  | ok command =>
    cases hs : a.hsmSessionManager with
    | none => simp [SendEncryptedCommand, eq_comm]
    | some sm =>
      cases hr : env.respond sm command with
      | error err => simp [SendEncryptedCommand, hr]
      | fault p => simp [SendEncryptedCommand, hr, eq_comm]
      | ok resp =>
        cases resp with
        | SignDataEddsaResponse sig =>
          by_cases hlen : sig.length = 64
          · simp [SendEncryptedCommand, hr, hlen]
          · simp [SendEncryptedCommand, hr, hlen]
        | GetPubKeyResponse alg kd => simp [SendEncryptedCommand, hr]
        | PutAsymmetricKeyResponse k => simp [SendEncryptedCommand, hr]
        | other t d => simp [SendEncryptedCommand, hr]

theorem SignVote_signs_iff_valid_reply_witness :
    (SignVote signEnv startedPV "test-chain" sampleVote).1.out = .returned none ∧
    (SignVote signEnv startedPV "test-chain" sampleVote).2 =
      { sampleVote with Signature := sampleSignature } ∧
    (SignVote shortSignatureEnv startedPV "test-chain" sampleVote).2 = sampleVote ∧
    (SignVote signEnv newPV "test-chain" sampleVote).1.out = .panicked .nilDereference :=
  ⟨(SignVote_signs_iff_valid_reply signEnv startedPV "test-chain" sampleVote).1.mpr
      ⟨_, _, _, rfl, rfl, rfl, rfl⟩,
   (SignVote_signs_iff_valid_reply signEnv startedPV "test-chain" sampleVote).2.1
      _ rfl _ rfl _ rfl rfl,
   (SignVote_signs_iff_valid_reply shortSignatureEnv startedPV "test-chain" sampleVote).2.2.1
      (by
        intro h
        obtain ⟨sm, command, signature, -, -, hr, hl⟩ :=
          (SignVote_signs_iff_valid_reply shortSignatureEnv startedPV "test-chain"
            sampleVote).1.mp h
        have h63 : signature = List.replicate 63 9 := by
          simpa [shortSignatureEnv, fixedEnv] using hr.symm
        rw [h63] at hl
        simp at hl),
   ((SignVote_signs_iff_valid_reply signEnv newPV "test-chain" sampleVote).2.2.2.1
      .nilDereference).mpr ⟨_, rfl, Or.inl ⟨rfl, rfl⟩⟩⟩

/-- C4: when the reply to a sign command is a `SignDataEddsaResponse` whose
signature is not 64 bytes long, `signBytes` returns the nil slice and the error
"invalid signature length"; `SignVote` and `SignProposal` over those bytes return
that error and leave the vote, respectively the proposal, as it was. -/
theorem invalid_signature_length_rejected (env : Env) (a : AiakosPV) (sm : SessionManager)
    (data : Bytes) (command : CommandMessage) (signature : Bytes)
    (hsm : a.hsmSessionManager = some sm)
    (hcmd : env.CreateSignDataEddsaCommand a.signingKeyID data = .ok command)
    (hresp : env.respond sm command = .ok (.SignDataEddsaResponse signature))
    (hlen : signature.length ≠ 64) :
    (signBytes env a data).out = .returned ([], some "invalid signature length") ∧
    (∀ chainID vote, env.VoteSignBytes vote chainID = data →
      (SignVote env a chainID vote).1.out = .returned (some "invalid signature length") ∧
      (SignVote env a chainID vote).2 = vote) ∧
    (∀ chainID proposal, env.ProposalSignBytes proposal chainID = data →
      (SignProposal env a chainID proposal).1.out =
        .returned (some "invalid signature length") ∧
      (SignProposal env a chainID proposal).2 = proposal) := by
  have h : signBytes env a data =
      ⟨{ a with hsmSessionManager := some { sm with sent := sm.sent ++ [command] } },
        [⟨"invalid signature length", [("size", signature.length)]⟩],
        .returned ([], some "invalid signature length")⟩ := by
    simp [signBytes, hcmd, hsm, SendEncryptedCommand, hresp, hlen]
  refine ⟨by rw [h], ?_, ?_⟩
  · intro chainID vote hd
    simp [SignVote, hd, h]
  · intro chainID proposal hd
    simp [SignProposal, hd, h]

theorem invalid_signature_length_rejected_witness :
    (signBytes shortSignatureEnv startedPV [1, 2, 3]).out =
      .returned ([], some "invalid signature length") ∧
    (∀ chainID vote, shortSignatureEnv.VoteSignBytes vote chainID = [1, 2, 3] →
      (SignVote shortSignatureEnv startedPV chainID vote).1.out =
        .returned (some "invalid signature length") ∧
      (SignVote shortSignatureEnv startedPV chainID vote).2 = vote) ∧
    (∀ chainID proposal, shortSignatureEnv.ProposalSignBytes proposal chainID = [1, 2, 3] →
      (SignProposal shortSignatureEnv startedPV chainID proposal).1.out =
        .returned (some "invalid signature length") ∧
      (SignProposal shortSignatureEnv startedPV chainID proposal).2 = proposal) :=
  invalid_signature_length_rejected shortSignatureEnv startedPV freshSession [1, 2, 3]
    ⟨106, [0, 100, 1, 2, 3]⟩ (List.replicate 63 9) rfl rfl rfl (by decide)

/-- C5: `ImportKey` returns no error exactly when there is a session, the
put-asymmetric-key command was built, and the reply is a
`PutAsymmetricKeyResponse` whose `KeyID` equals the requested one; a reply with
any other `KeyID` yields the error "imported KeyID mismatch"; and whatever
happens the cached public key and the four configuration fields are
unchanged. -/
theorem ImportKey_checks_key_id (env : Env) (a : AiakosPV) (keyID : KeyID) (key : Bytes) :
    ((ImportKey env a keyID key).out = .returned none ↔
      ∃ sm command, a.hsmSessionManager = some sm ∧
        env.CreatePutAsymmetricKeyCommand keyID importedBytes env.Domain1
          env.CapabilityAsymmetricSignEddsa env.AlgorighmED25519 key [] = .ok command ∧
        env.respond sm command = .ok (.PutAsymmetricKeyResponse keyID)) ∧
    (∀ sm, a.hsmSessionManager = some sm → ∀ command,
      env.CreatePutAsymmetricKeyCommand keyID importedBytes env.Domain1
        env.CapabilityAsymmetricSignEddsa env.AlgorighmED25519 key [] = .ok command →
      ∀ respKeyID, env.respond sm command = .ok (.PutAsymmetricKeyResponse respKeyID) →
      respKeyID ≠ keyID →
      (ImportKey env a keyID key).out = .returned (some "imported KeyID mismatch")) ∧
    (ImportKey env a keyID key).pv.cachedPubKey = a.cachedPubKey ∧
    (ImportKey env a keyID key).pv.hsmURL = a.hsmURL ∧
    (ImportKey env a keyID key).pv.authKeyID = a.authKeyID ∧
    (ImportKey env a keyID key).pv.password = a.password ∧
    (ImportKey env a keyID key).pv.signingKeyID = a.signingKeyID := by
  unfold ImportKey
  cases hc : env.CreatePutAsymmetricKeyCommand keyID importedBytes env.Domain1
      env.CapabilityAsymmetricSignEddsa env.AlgorighmED25519 key [] with
  | error err => simp
  | ok command =>
    cases hs : a.hsmSessionManager with
    | none => simp [SendEncryptedCommand]
    | some sm =>
      cases hr : env.respond sm command with
      | error err => simp [SendEncryptedCommand, hr]
      | fault p => simp [SendEncryptedCommand, hr]
      | ok resp =>
        cases resp with
        | PutAsymmetricKeyResponse respKeyID =>
          by_cases hk : respKeyID = keyID
          · simp [SendEncryptedCommand, hr, hk]
          · simp [SendEncryptedCommand, hr, hk]
        | GetPubKeyResponse alg kd => simp [SendEncryptedCommand, hr]
        | SignDataEddsaResponse sig => simp [SendEncryptedCommand, hr]
        | other t d => simp [SendEncryptedCommand, hr]

theorem ImportKey_checks_key_id_witness :
    (ImportKey importEnv startedPV 7 [1, 2, 3]).out = .returned none ∧
    (ImportKey importEnv startedPV 8 [1, 2, 3]).out =
      .returned (some "imported KeyID mismatch") ∧
    (ImportKey importEnv startedPV 8 [1, 2, 3]).pv.cachedPubKey = startedPV.cachedPubKey :=
  ⟨(ImportKey_checks_key_id importEnv startedPV 7 [1, 2, 3]).1.mpr ⟨_, _, rfl, rfl, rfl⟩,
   (ImportKey_checks_key_id importEnv startedPV 8 [1, 2, 3]).2.1 _ rfl _ rfl 7 rfl (by decide),
   (ImportKey_checks_key_id importEnv startedPV 8 [1, 2, 3]).2.2.1⟩

/-! ### What each method does to the cache -/

theorem GetPubKey_of_cached (env : Env) (a : AiakosPV) (k : PubKeyEd25519)
    (h : a.cachedPubKey = some k) : GetPubKey env a = ⟨a, [], .returned k⟩ := by
  simp [GetPubKey, h]

theorem OnStart_cachedPubKey (env : Env) (a : AiakosPV) :
    (OnStart env a).pv.cachedPubKey = a.cachedPubKey := by
  unfold OnStart
  cases env.NewSessionManager a.hsmURL a.authKeyID a.password <;> rfl

theorem OnStop_cachedPubKey (env : Env) (a : AiakosPV) :
    (OnStop env a).pv.cachedPubKey = a.cachedPubKey := by
  unfold OnStop
  cases a.hsmSessionManager with
  | none => rfl
  | some sm =>
    simp only [Destroy]
    cases (env.Destroy sm).2 <;> rfl

theorem signBytes_cachedPubKey (env : Env) (a : AiakosPV) (data : Bytes) :
    (signBytes env a data).pv.cachedPubKey = a.cachedPubKey := by
  unfold signBytes
  cases env.CreateSignDataEddsaCommand a.signingKeyID data with
  | error err => rfl
  | ok command =>
    cases hs : a.hsmSessionManager with
    | none => rfl
    | some sm =>
      cases hr : env.respond sm command with
      | error err => simp [SendEncryptedCommand, hr]
      | fault p => simp [SendEncryptedCommand, hr]
      | ok resp =>
        cases resp with
        | SignDataEddsaResponse sig =>
          by_cases hlen : sig.length = 64 <;> simp [SendEncryptedCommand, hr, hlen]
        | GetPubKeyResponse alg kd => simp [SendEncryptedCommand, hr]
        | PutAsymmetricKeyResponse k => simp [SendEncryptedCommand, hr]
        | other t d => simp [SendEncryptedCommand, hr]

theorem ImportKey_cachedPubKey (env : Env) (a : AiakosPV) (keyID : KeyID) (key : Bytes) :
    (ImportKey env a keyID key).pv.cachedPubKey = a.cachedPubKey := by
  unfold ImportKey
  cases env.CreatePutAsymmetricKeyCommand keyID importedBytes env.Domain1
      env.CapabilityAsymmetricSignEddsa env.AlgorighmED25519 key [] with
  | error err => rfl
  | ok command =>
    cases hs : a.hsmSessionManager with
    | none => rfl
    | some sm =>
      cases hr : env.respond sm command with
      | error err => simp [SendEncryptedCommand, hr]
      | fault p => simp [SendEncryptedCommand, hr]
      | ok resp =>
        cases resp with
        | PutAsymmetricKeyResponse respKeyID =>
          by_cases hk : respKeyID = keyID <;> simp [SendEncryptedCommand, hr, hk]
        | GetPubKeyResponse alg kd => simp [SendEncryptedCommand, hr]
        | SignDataEddsaResponse sig => simp [SendEncryptedCommand, hr]
        | other t d => simp [SendEncryptedCommand, hr]

theorem SignVote_pv (env : Env) (a : AiakosPV) (chainID : String) (vote : Vote) :
    (SignVote env a chainID vote).1.pv = (signBytes env a (env.VoteSignBytes vote chainID)).pv := by
  unfold SignVote
  rcases signBytes env a (env.VoteSignBytes vote chainID) with ⟨a1, lg, ⟨sig, _ | err⟩ | p⟩ <;> rfl

theorem SignProposal_pv (env : Env) (a : AiakosPV) (chainID : String) (proposal : Proposal) :
    (SignProposal env a chainID proposal).1.pv =
      (signBytes env a (env.ProposalSignBytes proposal chainID)).pv := by
  unfold SignProposal
  rcases signBytes env a (env.ProposalSignBytes proposal chainID) with
    ⟨a1, lg, ⟨sig, _ | err⟩ | p⟩ <;> rfl

/-- C6: once the cached public key holds `k`, it still holds `k` after any single
call on the adapter (`OnStart`, `OnStop`, `GetAddress`, `GetPubKey`, `SignVote`,
`SignProposal`, `ImportKey`) whatever the collaborators do, and therefore after
any sequence of calls. -/
theorem cachedPubKey_never_changes (a : AiakosPV) (k : PubKeyEd25519)
    (hk : a.cachedPubKey = some k) :
    (∀ env op, (step env a op).cachedPubKey = some k) ∧
    (∀ calls, (run a calls).cachedPubKey = some k) := by
  have hstep : ∀ (b : AiakosPV), b.cachedPubKey = some k →
      ∀ env op, (step env b op).cachedPubKey = some k := by
    intro b hb env op
    cases op with
    | OnStart => simpa [step, OnStart_cachedPubKey] using hb
    | OnStop => simpa [step, OnStop_cachedPubKey] using hb
    | GetAddress => simpa [step, GetAddress, GetPubKey_of_cached env b k hb] using hb
    | GetPubKey => simpa [step, GetPubKey_of_cached env b k hb] using hb
    | SignVote chainID vote => simpa [step, SignVote_pv, signBytes_cachedPubKey] using hb
    | SignProposal chainID proposal =>
      simpa [step, SignProposal_pv, signBytes_cachedPubKey] using hb
    | ImportKey keyID key => simpa [step, (ImportKey_cachedPubKey env b keyID key)] using hb
  refine ⟨hstep a hk, ?_⟩
  intro calls
  induction calls generalizing a with
  | nil => exact hk
  | cons c rest ih => exact ih (step c.1 a c.2) (hstep a hk c.1 c.2)

theorem cachedPubKey_never_changes_witness :
    (run cachedPV
      [(unreachableEnv, .OnStop), (unreachableEnv, .OnStart), (wrongAlgorithmEnv, .GetPubKey),
       (shortKeyEnv, .GetAddress), (signEnv, .SignVote "test-chain" sampleVote),
       (shortSignatureEnv, .SignProposal "test-chain" sampleProposal),
       (importEnv, .ImportKey 7 [1, 2, 3])]).cachedPubKey = some sampleKey :=
  (cachedPubKey_never_changes cachedPV sampleKey rfl).2 _

/-- C7, as the code has it: on a newly constructed adapter whose `OnStart` failed
to open a session (it returned the error and assigned nothing), `OnStop` calls
`Destroy` on the nil session pointer and faults. -/
theorem OnStop_after_failed_OnStart_faults :
    (OnStart unreachableEnv newPV).out = .returned (some "connection refused") ∧
    (OnStart unreachableEnv newPV).pv.hsmSessionManager = none ∧
    (OnStop unreachableEnv (OnStart unreachableEnv newPV).pv).out =
      .panicked .nilDereference := by
  refine ⟨rfl, rfl, rfl⟩

/-- C7, amended: `OnStop` adds no check and no fault of its own to `Destroy`.  On
an adapter that holds a session, which is the case after every `OnStart` that
returned no error, `OnStop` ends exactly as the library's `Destroy` ends on that
session, and only the session changes; so `OnStop` completes without a fault if
and only if a session is held and `Destroy` on it completes.  On an adapter
without a session `OnStop` faults on the nil pointer; an `OnStart` that returned
an error leaves the adapter as it was. -/
theorem OnStop_ends_as_Destroy_ends (env : Env) (a : AiakosPV) :
    ((OnStop env a).out = .returned () ↔
      ∃ sm, a.hsmSessionManager = some sm ∧ (env.Destroy sm).2 = .returned ()) ∧
    (∀ sm, a.hsmSessionManager = some sm →
      (OnStop env a).out = (env.Destroy sm).2 ∧
      (OnStop env a).pv =
        { a with hsmSessionManager := some { sm with destroyed := (env.Destroy sm).1 } }) ∧
    (a.hsmSessionManager = none →
      (OnStop env a).out = .panicked .nilDereference ∧ (OnStop env a).pv = a) ∧
    ((OnStart env a).out = .returned none →
      ∃ sm, env.NewSessionManager a.hsmURL a.authKeyID a.password = .ok sm ∧
        (OnStart env a).pv.hsmSessionManager = some sm ∧
        (OnStop env (OnStart env a).pv).out = (env.Destroy sm).2) ∧
    (∀ err, (OnStart env a).out = .returned (some err) → (OnStart env a).pv = a) := by
  have hsome : ∀ (b : AiakosPV) (sm : SessionManager), b.hsmSessionManager = some sm →
      (OnStop env b).out = (env.Destroy sm).2 ∧
      (OnStop env b).pv =
        { b with hsmSessionManager := some { sm with destroyed := (env.Destroy sm).1 } } := by
    intro b sm hsm
    unfold OnStop
    rw [hsm]
    simp only [Destroy]
    cases (env.Destroy sm).2 <;> simp
  refine ⟨?_, hsome a, ?_, ?_, ?_⟩
  · cases hs : a.hsmSessionManager with
    | none => simp [OnStop, hs, Destroy]
    | some sm => simp [(hsome a sm hs).1]
  · intro hnone
    obtain ⟨session, url, authKey, pw, signKey, cache⟩ := a
    simp only at hnone
    subst hnone
    simp [OnStop, Destroy]
  · intro hstart
    unfold OnStart at hstart ⊢
    cases hn : env.NewSessionManager a.hsmURL a.authKeyID a.password with
    | error err => simp [hn] at hstart
    | ok sm => exact ⟨sm, rfl, rfl, (hsome _ sm rfl).1⟩
  · intro err
    unfold OnStart
    cases env.NewSessionManager a.hsmURL a.authKeyID a.password <;> simp

theorem OnStop_ends_as_Destroy_ends_witness :
    (OnStop signEnv (OnStart signEnv newPV).pv).out = .returned () ∧
    (OnStop failingDestroyEnv startedPV).out = .panicked (.error "close session failed") ∧
    (OnStop signEnv newPV).out = .panicked .nilDereference :=
  ⟨(OnStop_ends_as_Destroy_ends signEnv (OnStart signEnv newPV).pv).1.mpr
      ⟨freshSession, rfl, rfl⟩,
   ((OnStop_ends_as_Destroy_ends failingDestroyEnv startedPV).2.1 freshSession rfl).1,
   ((OnStop_ends_as_Destroy_ends signEnv newPV).2.2.1 rfl).1⟩

/-- C8, as the code has it: a reply tagged with another algorithm makes
`GetPubKey` panic with "invalid pubKey algorithm", not "unsupported algorithm";
an Ed25519 reply of 31 bytes makes it panic with "invalid pubKey size", not
"invalid key length". -/
theorem GetPubKey_messages_are_not_the_stated_ones :
    (GetPubKey wrongAlgorithmEnv startedPV).out = .panicked (.error "invalid pubKey algorithm") ∧
    (GetPubKey wrongAlgorithmEnv startedPV).out ≠ .panicked (.error "unsupported algorithm") ∧
    (GetPubKey shortKeyEnv startedPV).out = .panicked (.error "invalid pubKey size") ∧
    (GetPubKey shortKeyEnv startedPV).out ≠ .panicked (.error "invalid key length") := by
  have h1 : (GetPubKey wrongAlgorithmEnv startedPV).out =
      .panicked (.error "invalid pubKey algorithm") := rfl
  have h2 : (GetPubKey shortKeyEnv startedPV).out =
      .panicked (.error "invalid pubKey size") := rfl
  refine ⟨h1, ?_, h2, ?_⟩
  · rw [h1]; simp
  · rw [h2]; simp

/-- C8, amended: with an empty cache, for every `GetPubKeyResponse` reply to the
get-public-key command: if its algorithm tag is not Ed25519, `GetPubKey` panics
with the error "invalid pubKey algorithm"; if its tag is Ed25519 but its key data
is not 32 bytes long, `GetPubKey` panics with the error "invalid pubKey size". -/
theorem GetPubKey_validation_messages (env : Env) (a : AiakosPV) (sm : SessionManager)
    (command : CommandMessage) (algorithm : Algorithm) (keyData : Bytes)
    (hcache : a.cachedPubKey = none)
    (hsm : a.hsmSessionManager = some sm)
    (hcmd : env.CreateGetPubKeyCommand a.signingKeyID = .ok command)
    (hresp : env.respond sm command = .ok (.GetPubKeyResponse algorithm keyData)) :
    (algorithm ≠ env.AlgorighmED25519 →
      (GetPubKey env a).out = .panicked (.error "invalid pubKey algorithm")) ∧
    (algorithm = env.AlgorighmED25519 → keyData.length ≠ 32 →
      (GetPubKey env a).out = .panicked (.error "invalid pubKey size")) := by
  constructor
  · intro halg
    simp [GetPubKey, hcache, hcmd, hsm, SendEncryptedCommand, hresp, halg]
  · intro halg hlen
    have hlen2 : keyData.length ≠ PubKeyEd25519Size := hlen
    simp [GetPubKey, hcache, hcmd, hsm, SendEncryptedCommand, hresp, halg, hlen2]

theorem GetPubKey_validation_messages_witness :
    (GetPubKey wrongAlgorithmEnv startedPV).out =
      .panicked (.error "invalid pubKey algorithm") ∧
    (GetPubKey shortKeyEnv startedPV).out = .panicked (.error "invalid pubKey size") :=
  ⟨(GetPubKey_validation_messages wrongAlgorithmEnv startedPV freshSession ⟨84, [0, 100]⟩ 12
      sampleKeyData rfl rfl rfl rfl).1 (by decide),
   (GetPubKey_validation_messages shortKeyEnv startedPV freshSession ⟨84, [0, 100]⟩ 46
      (List.replicate 31 7) rfl rfl rfl rfl).2 rfl (by decide)⟩

/-! ### `signBytes`, seen from its callers -/

theorem signBytes_signature_origin (env : Env) (a : AiakosPV) (data signature : Bytes)
    (h : (signBytes env a data).out = .returned (signature, none)) :
    ∃ sm command, a.hsmSessionManager = some sm ∧
      env.CreateSignDataEddsaCommand a.signingKeyID data = .ok command ∧
      env.respond sm command = .ok (.SignDataEddsaResponse signature) ∧
      signature.length = 64 := by
  unfold signBytes at h
  cases hc : env.CreateSignDataEddsaCommand a.signingKeyID data with
  | error err => simp [hc] at h
  | ok command =>
    cases hs : a.hsmSessionManager with
    | none => simp [hc, hs, SendEncryptedCommand] at h
    | some sm =>
      cases hr : env.respond sm command with
      | error err => simp [hc, hs, SendEncryptedCommand, hr] at h
      | fault p => simp [hc, hs, SendEncryptedCommand, hr] at h
      | ok resp =>
        cases resp with
        | SignDataEddsaResponse sig =>
          by_cases hlen : sig.length = 64
          · simp [hc, hs, SendEncryptedCommand, hr, hlen] at h
            subst h
            exact ⟨sm, command, rfl, rfl, hr, hlen⟩
          · simp [hc, hs, SendEncryptedCommand, hr, hlen] at h
        | GetPubKeyResponse alg kd => simp [hc, hs, SendEncryptedCommand, hr] at h
        | PutAsymmetricKeyResponse k => simp [hc, hs, SendEncryptedCommand, hr] at h
        | other t d => simp [hc, hs, SendEncryptedCommand, hr] at h

theorem signBytes_records_command (env : Env) (a : AiakosPV) (sm : SessionManager)
    (data : Bytes) (command : CommandMessage)
    (hsm : a.hsmSessionManager = some sm)
    (hcmd : env.CreateSignDataEddsaCommand a.signingKeyID data = .ok command) :
    (signBytes env a data).pv.hsmSessionManager =
      some { sm with sent := sm.sent ++ [command] } := by
  unfold signBytes
  rw [hcmd, hsm]
  cases hr : env.respond sm command with
  | error err => simp [SendEncryptedCommand, hr]
  | fault p => simp [SendEncryptedCommand, hr]
  | ok resp =>
    cases resp with
    | SignDataEddsaResponse sig =>
      by_cases hlen : sig.length = 64 <;> simp [SendEncryptedCommand, hr, hlen]
    | GetPubKeyResponse alg kd => simp [SendEncryptedCommand, hr]
    | PutAsymmetricKeyResponse k => simp [SendEncryptedCommand, hr]
    | other t d => simp [SendEncryptedCommand, hr]

/-- C9: when a vote and a proposal have equal canonical sign bytes for the chain
ID, `SignVote` and `SignProposal` end the same way (same error, both none, or
the same panic), leave the same adapter behind and log the same lines; on an
adapter with a session both record the same sign command, built from the signing
key slot and those bytes, as sent; when no error is returned both objects
receive the same 64-byte signature, the one in the HSM's reply, in `Signature`
and are otherwise unchanged; in every other case both objects are unchanged. -/
theorem SignProposal_same_contract_as_SignVote (env : Env) (a : AiakosPV) (chainID : String)
    (vote : Vote) (proposal : Proposal)
    (hbytes : env.VoteSignBytes vote chainID = env.ProposalSignBytes proposal chainID) :
    (SignVote env a chainID vote).1.out = (SignProposal env a chainID proposal).1.out ∧
    (SignVote env a chainID vote).1.pv = (SignProposal env a chainID proposal).1.pv ∧
    (SignVote env a chainID vote).1.logged = (SignProposal env a chainID proposal).1.logged ∧
    (∀ sm, a.hsmSessionManager = some sm → ∀ command,
      env.CreateSignDataEddsaCommand a.signingKeyID (env.VoteSignBytes vote chainID)
        = .ok command →
      (SignVote env a chainID vote).1.pv.hsmSessionManager =
        some { sm with sent := sm.sent ++ [command] } ∧
      (SignProposal env a chainID proposal).1.pv.hsmSessionManager =
        some { sm with sent := sm.sent ++ [command] }) ∧
    ((SignVote env a chainID vote).1.out = .returned none →
      ∃ sm command signature, a.hsmSessionManager = some sm ∧
        env.CreateSignDataEddsaCommand a.signingKeyID (env.VoteSignBytes vote chainID)
          = .ok command ∧
        env.respond sm command = .ok (.SignDataEddsaResponse signature) ∧
        signature.length = 64 ∧
        (SignVote env a chainID vote).2 = { vote with Signature := signature } ∧
        (SignProposal env a chainID proposal).2 = { proposal with Signature := signature }) ∧
    ((SignVote env a chainID vote).1.out ≠ .returned none →
      (SignVote env a chainID vote).2 = vote ∧
      (SignProposal env a chainID proposal).2 = proposal) := by
  refine ⟨?_, ?_, ?_, ?_, ?_, ?_⟩
  · unfold SignVote SignProposal
    rw [← hbytes]
    rcases signBytes env a (env.VoteSignBytes vote chainID) with ⟨a1, lg, ⟨sig, _ | err⟩ | p⟩ <;> rfl
  · rw [SignVote_pv, SignProposal_pv, hbytes]
  · unfold SignVote SignProposal
    rw [← hbytes]
    rcases signBytes env a (env.VoteSignBytes vote chainID) with ⟨a1, lg, ⟨sig, _ | err⟩ | p⟩ <;> rfl
  · intro sm hsm command hcmd
    rw [SignVote_pv, SignProposal_pv, ← hbytes]
    exact ⟨signBytes_records_command env a sm _ command hsm hcmd,
      signBytes_records_command env a sm _ command hsm hcmd⟩
  · unfold SignVote SignProposal
    rw [← hbytes]
    rcases hsb : signBytes env a (env.VoteSignBytes vote chainID) with
      ⟨a1, lg, ⟨sig, _ | err⟩ | p⟩
    · intro _
      have ho : (signBytes env a (env.VoteSignBytes vote chainID)).out = .returned (sig, none) := by
        rw [hsb]
      obtain ⟨sm, command, h1, h2, h3, h4⟩ := signBytes_signature_origin env a _ sig ho
      exact ⟨sm, command, sig, h1, h2, h3, h4, rfl, rfl⟩
    · simp
    · simp
  · unfold SignVote SignProposal
    rw [← hbytes]
    rcases signBytes env a (env.VoteSignBytes vote chainID) with ⟨a1, lg, ⟨sig, _ | err⟩ | p⟩ <;>
      simp

theorem SignProposal_same_contract_as_SignVote_witness :
    (SignVote signEnv startedPV "test-chain" sampleVote).1.out =
      (SignProposal signEnv startedPV "test-chain" sampleProposal).1.out ∧
    (SignVote signEnv startedPV "test-chain" sampleVote).1.pv =
      (SignProposal signEnv startedPV "test-chain" sampleProposal).1.pv ∧
    (SignVote signEnv startedPV "test-chain" sampleVote).1.pv.hsmSessionManager =
      some ⟨[⟨106, [0, 100, 116, 101, 115, 116, 45, 99, 104, 97, 105, 110, 3, 4]⟩], false⟩ ∧
    (SignProposal signEnv startedPV "test-chain" sampleProposal).2 =
      { sampleProposal with Signature := sampleSignature } :=
  ⟨(SignProposal_same_contract_as_SignVote signEnv startedPV "test-chain" sampleVote
      sampleProposal rfl).1,
   (SignProposal_same_contract_as_SignVote signEnv startedPV "test-chain" sampleVote
      sampleProposal rfl).2.1,
   ((SignProposal_same_contract_as_SignVote signEnv startedPV "test-chain" sampleVote
      sampleProposal rfl).2.2.2.1 freshSession rfl _ rfl).1,
   rfl⟩

end Aiakos
